import Mathlib

/-!
Shallow embedding of the factory-backend control plane
(machines/raspberry_pi.py, machines/gantry.py, api/cameras.py,
sections/jobs_manager.py, sections/factory.py) and proofs about it.
GPIO side effects are modelled as event traces; stateful managers as
explicit state-passing functions; Python exceptions as `Except`.
-/

/-- Python exception kinds raised by the embedded code. -/
inductive PyError
  | runtimeError (msg : String)
  | valueError (msg : String)
  | nameError (msg : String)
  | external (msg : String)
deriving DecidableEq, Repr

/-- Logic level on a GPIO output line. -/
inductive PinLevel
  | high
  | low
deriving DecidableEq, Repr

/-- Observable GPIO side effects of RaspberryPi methods, in program order.
`setDir`/`setDuty` model `GPIO.output(dir_pin, ...)` / `pwm.ChangeDutyCycle`;
`setLock` models `GPIO.output(lock_pin, ...)`; `sleep` models `time.sleep`. -/
inductive GpioEvent
  | setDir (level : PinLevel)
  | setDuty (duty : Int)
  | setLock (level : PinLevel)
  | sleep (t : Rat)
deriving DecidableEq, Repr

/-- The state of the three hardware outputs driven by RaspberryPi. -/
structure GpioState where
  dirPin : PinLevel
  duty : Int
  lockPin : PinLevel
deriving DecidableEq, Repr

def applyGpioEvent (s : GpioState) : GpioEvent → GpioState
  | .setDir l => { s with dirPin := l }
  | .setDuty d => { s with duty := d }
  | .setLock l => { s with lockPin := l }
  | .sleep _ => s

/-- Replay an event trace on the outputs. -/
def runGpioEvents (s : GpioState) (es : List GpioEvent) : GpioState :=
  es.foldl applyGpioEvent s

/-- Outputs immediately after `connect`: pwm started at 0 duty. -/
def initGpio : GpioState := { dirPin := .low, duty := 0, lockPin := .low }

/-- Python `str.upper()` restricted to ASCII, character by character. -/
def pyUpper (s : String) : String := String.mk (s.data.map Char.toUpper)

/-- `RaspberryPi.screw(direction, duration, speed)`.
Returns the emitted GPIO event trace together with the returned string list,
or the raised exception.  Mirrors raspberry_pi.py lines 63 to 96. -/
def screw (connected : Bool) (direction : String) (duration : Rat) (speed : Int) :
    Except PyError (List GpioEvent × List String) :=
  if !connected then
    .error (.runtimeError "GPIO not initialized")
  else
    let dir := pyUpper direction
    if dir = "STOP" then
      .ok ([.setDuty 0], ["STOP"])
    else if dir ≠ "CW" ∧ dir ≠ "CCW" then
      .error (.valueError "Direction must be CW, CCW, or STOP")
    else
      let dirLevel : PinLevel := if dir = "CW" then .high else .low
      let duty := max 0 (min 100 speed)
      let events :=
        if duration > 0 then
          [GpioEvent.setDir dirLevel, GpioEvent.setDuty duty,
           GpioEvent.sleep duration, GpioEvent.setDuty 0]
        else
          [GpioEvent.setDir dirLevel, GpioEvent.setDuty duty]
      .ok (events, [dir ++ " " ++ toString speed ++ " pct for " ++ toString duration ++ "s"])

/-- Whether the hold (`time.sleep`) inside `unlock` completes or raises. -/
inductive HoldOutcome
  | ok
  | raised
deriving DecidableEq, Repr

/-- `RaspberryPi.unlock(time_s)` (raspberry_pi.py lines 98 to 113):
`try` energize and hold, `finally` de-energize.  The `finally` block runs on
both exit paths, so the trace ends with `setLock low` either way; on the
raised path the exception propagates after the `finally`. -/
def unlock (timeS : Rat) (outcome : HoldOutcome) : List GpioEvent × Option PyError :=
  match outcome with
  | .ok => ([.setLock .high, .sleep timeS, .setLock .low], none)
  | .raised => ([.setLock .high, .setLock .low], some (.external "hold interrupted"))

/-- Logical toolend position of the gantry (x, y, z, a axes). -/
structure Pose where
  x : Rat
  y : Rat
  z : Rat
  a : Rat
deriving DecidableEq, Repr

/-- Mutable fields of `Gantry` relevant to motion state (gantry.py). -/
structure GantryState where
  in_motion : Bool
  position : Pose
deriving DecidableEq, Repr

/-- Whether the body of the background move task completes or raises. -/
inductive TaskOutcome
  | ok
  | raised
deriving DecidableEq, Repr

/-- `Gantry.goto(x, y, z, a, speed)` (gantry.py lines 94 to 103): if already
in motion, return `False` without touching state; otherwise set
`in_motion := true` and spawn the move task.  Returns (result, state after
the call). -/
def Gantry.goto (s : GantryState) (x y z a speed : Rat) : Bool × GantryState :=
  if s.in_motion then (false, s)
  else (true, { s with in_motion := true })

/-- `Gantry._goto_task` (gantry.py lines 85 to 92): sends G90, the G1 move
and M400 inside a `try`; `send` never mutates controller state (it only does
HTTP I/O and catches its own errors), and the `finally` clears `in_motion`
on both exit paths.  Returns (state on task exit, issued commands, exception
escaping the task body, if any). -/
def Gantry.goto_task (x y z a speed : Rat) (outcome : TaskOutcome) (s : GantryState) :
    GantryState × List String × Option PyError :=
  let cmds := ["G90",
    "G1 X" ++ toString x ++ " Y" ++ toString y ++ " Z" ++ toString z ++
      " A" ++ toString a ++ " F" ++ toString speed,
    "M400"]
  match outcome with
  | .ok => ({ s with in_motion := false }, cmds, none)
  | .raised => ({ s with in_motion := false }, cmds, some (.external "task error"))

/-- Mutable fields of `CameraManager` (api/cameras.py): reference count,
the capture handle (`cap`: `none` when unassigned, `some opened` once a
`VideoCapture` was constructed), whether a capture thread object is held,
the stop event, and whether the background loop is still executing. -/
structure CamState where
  refCount : Int
  cap : Option Bool
  threadHeld : Bool
  stopSet : Bool
  loopRunning : Bool
deriving DecidableEq, Repr

/-- A fresh `CameraManager(index)`. -/
def initCam : CamState :=
  { refCount := 0, cap := none, threadHeld := false, stopSet := false, loopRunning := false }

/-- `CameraManager.start` (api/cameras.py lines 43 to 64).  `openOk` models
whether `VideoCapture.isOpened()` succeeds.  Returns the new state and the
raised exception on the failed-open path. -/
def CameraManager.start (openOk : Bool) (s : CamState) : CamState × Option PyError :=
  let s1 := { s with refCount := s.refCount + 1 }
  if s1.threadHeld then
    (s1, none)
  else
    let s2 := { s1 with cap := some openOk }
    if !openOk then
      ({ s2 with refCount := s2.refCount - 1 },
        some (.runtimeError "Camera is busy or unavailable."))
    else
      ({ s2 with stopSet := false, threadHeld := true, loopRunning := true }, none)

/-- `CameraManager.stop` (api/cameras.py lines 66 to 80).  `joinOk` models
whether `thread.join(timeout=2.0)` sees the loop exit within the timeout;
the capture handle is released and cleared regardless. -/
def CameraManager.stop (joinOk : Bool) (s : CamState) : CamState :=
  let s1 := { s with refCount := s.refCount - 1 }
  if s1.refCount ≤ 0 then
    let s2 := { s1 with stopSet := true }
    let s3 := { s2 with loopRunning := if joinOk then false else s2.loopRunning }
    { s3 with cap := none, threadHeld := false, refCount := 0 }
  else s1

/-- One external call into a `CameraManager`, with its hardware outcome. -/
inductive CamOp
  | start (openOk : Bool)
  | stop (joinOk : Bool)
deriving DecidableEq, Repr

/-- State after one completed `start`/`stop` call (exceptions from a failed
open propagate to the caller but the state update is what remains). -/
def camStep (s : CamState) : CamOp → CamState
  | .start openOk => (CameraManager.start openOk s).1
  | .stop joinOk => CameraManager.stop joinOk s

/-- State after a whole call sequence, starting from a fresh manager. -/
def camRun (ops : List CamOp) : CamState :=
  ops.foldl camStep initCam

/-- A job record: `jobs[id] = dict(id, machine, action, params)`; params map
parameter names to integer values. -/
structure Job where
  id : String
  machine : String
  action : String
  params : List (String × Int)
deriving DecidableEq, Repr

/-- The in-memory job mapping (a Python dict: insertion-ordered, keys
unique). -/
abbrev JobMap := List (String × Job)

/-- Python dict assignment `d[k] = v`: replace in place if the key exists,
else append. -/
def dictSet (m : JobMap) (k : String) (v : Job) : JobMap :=
  if m.any (fun p => p.1 == k) then
    m.map (fun p => if p.1 == k then (k, v) else p)
  else m ++ [(k, v)]

/-- The jobs file on disk: missing, present but unparseable, or a parsed
job document (json.dump / json.load are mutually inverse on the
documents this store writes, so the file is modelled at document level). -/
inductive JobsFile
  | absent
  | invalid
  | doc (jobs : JobMap)
deriving DecidableEq, Repr

/-- Mutable fields of `JobsManager` (jobs_manager.py lines 34 to 38). -/
structure JobsManager where
  jobs_file : String
  counter : Nat
  jobs : JobMap
deriving DecidableEq, Repr

/-- `JobsManager.__init__`. -/
def initJobsManager : JobsManager := { jobs_file := "", counter := 0, jobs := [] }

/-- `JobsManager.PARAM_TEMPLATES` (jobs_manager.py lines 10 to 32). -/
def PARAM_TEMPLATES : List (String × List (String × List (String × Int))) :=
  [("gantry",
     [("goto", [("x", 0), ("y", 0), ("z", 0), ("a", 0), ("speed", 2000)]),
      ("step", [("x", 0), ("y", 0), ("z", 0), ("r", 0), ("speed", 1000)]),
      ("unlock", []),
      ("attach", []),
      ("detach", [])]),
   ("cobot280",
     [("goto", [("j1", 0), ("j2", 0), ("j3", 0), ("j4", 0), ("j5", 0), ("j6", 0)]),
      ("step", [("j1", 0), ("j2", 0), ("j3", 0), ("j4", 0), ("j5", 0), ("j6", 0)])]),
   ("gripper",
     [("open", []), ("close", []), ("speedUp", []), ("speedDown", [])]),
   ("screwdriver",
     [("screwIn", []), ("screwOut", [])])]

/-- `JobsManager.get_default_params` (jobs_manager.py lines 40 to 44):
template lookup, empty dict on `KeyError`. -/
def get_default_params (machine action : String) : List (String × Int) :=
  match (PARAM_TEMPLATES.lookup machine).bind (fun t => t.lookup action) with
  | some p => p
  | none => []

/-- `JobsManager.load` (jobs_manager.py lines 46 to 62): record the path;
if the path is non-empty and the file exists, parse it (empty store on
decode error), else empty store.  The counter is untouched. -/
def JobsManager.load (m : JobsManager) (jobsFile : String) (fs : JobsFile) : JobsManager :=
  let m1 := { m with jobs_file := jobsFile }
  if jobsFile ≠ "" ∧ fs ≠ .absent then
    match fs with
    | .doc js => { m1 with jobs := js }
    | _ => { m1 with jobs := [] }
  else { m1 with jobs := [] }

/-- `JobsManager.save_jobs` (jobs_manager.py lines 64 to 81): refuse when no
path is set, else overwrite the file with the current mapping.  Returns the
success flag and the file after the call. -/
def save_jobs (m : JobsManager) (fs : JobsFile) : Bool × JobsFile :=
  if m.jobs_file = "" then (false, fs)
  else (true, .doc m.jobs)

/-- `JobsManager.add_job` (jobs_manager.py lines 83 to 94): id from the
counter, a job with fixed literal defaults, store, persist, return the id. -/
def add_job (m : JobsManager) (fs : JobsFile) : String × JobsManager × JobsFile :=
  let newId := toString m.counter
  let m1 := { m with counter := m.counter + 1 }
  let newJob : Job :=
    { id := newId, machine := "gantry", action := "step",
      params := [("x", 0), ("y", 5), ("z", 0), ("a", 0), ("speed", 3000)] }
  let m2 := { m1 with jobs := dictSet m1.jobs newId newJob }
  let (_, fs2) := save_jobs m2 fs
  (newId, m2, fs2)

/-- The value returned by a dispatched machine method: either an ordinary
return value or an awaitable (as classified by `inspect.isawaitable`). -/
inductive CallResult
  | sync (v : List String)
  | awaitable (v : List String)
deriving DecidableEq, Repr

/-- A machine object for dispatch: `getattr(machine, action, None)` is a
lookup of the action name in its method table. -/
abbrev Machine := List (String × (List (String × Int) → CallResult))

/-- `JobsManager.run_job` (jobs_manager.py lines 108 to 126): resolve the
action on the machine (warn and return `None` when missing), call it with
the params; if the result is awaitable, return it at once (no persist); else
persist and return it.  Returns (result, manager, file after the call). -/
def run_job (job : Job) (machine : Machine) (m : JobsManager) (fs : JobsFile) :
    Option CallResult × JobsManager × JobsFile :=
  match machine.lookup job.action with
  | none => (none, m, fs)
  | some f =>
    match f job.params with
    | .awaitable v => (some (.awaitable v), m, fs)
    | .sync v =>
      let (_, fs2) := save_jobs m fs
      (some (.sync v), m, fs2)

/-- The gantry snapshot stored under `machines.gantry` in the factory file. -/
structure GantryDoc where
  holders : List (String × String)
  locations : List (String × String)
  toolend_position : Pose
deriving DecidableEq, Repr

/-- The parsed aggregate factory document: `machines.gantry` (`none` models
a missing or empty entry, which is falsy in Python), `tools`, and the
sub-store paths (`data.get` yields `None` when absent, modelled as ""). -/
structure FactoryDoc where
  gantry : Option GantryDoc
  tools : List (String × String)
  jobsPath : String
  partsPath : String
deriving DecidableEq, Repr

/-- The factory state file on disk. -/
inductive FactoryFile
  | absent
  | empty
  | invalid
  | doc (d : FactoryDoc)
deriving DecidableEq, Repr

/-- The gantry machine as the factory holds it: default-constructed by
`Gantry.__init__`, with `holders`/`locations`/`toolend` attached by
`load_factory`. -/
structure FactoryGantry where
  holders : List (String × String)
  locations : List (String × String)
  toolend_position : Pose
  in_motion : Bool
deriving DecidableEq, Repr

/-- `Gantry.__init__`: toolend position all zero, not in motion, no
holders/locations attributes yet (modelled empty). -/
def defaultGantry : FactoryGantry :=
  { holders := [], locations := [], toolend_position := ⟨0, 0, 0, 0⟩, in_motion := false }

/-- The fields of `Factory` the aggregate load touches (factory.py). -/
structure Factory where
  save_file : String
  gantry : FactoryGantry
  tools : List (String × String)
  jobs_manager : JobsManager
deriving DecidableEq, Repr

/-- `Factory.load_factory(file)` (factory.py lines 36 to 67).  The local
`data` is assigned only on the branch where the file exists, is non-empty
and parses; on the absent / zero-byte / invalid-JSON branches only a warning
is logged, and the subsequent `data.get("machines", {})` then raises
`UnboundLocalError` (a `NameError`).  On the successful branch: fresh
default machines, tools and gantry snapshot from the document, jobs loaded
from the recorded jobs path. -/
def Factory.load_factory (file : String) (content : FactoryFile) (jobsFs : JobsFile) :
    Except PyError Factory :=
  match content with
  | .absent => .error (.nameError "data")
  | .empty => .error (.nameError "data")
  | .invalid => .error (.nameError "data")
  | .doc d =>
    let gantry :=
      match d.gantry with
      | some g =>
        { defaultGantry with
            holders := g.holders
            locations := g.locations
            toolend_position := g.toolend_position }
      | none => defaultGantry
    let jm := JobsManager.load initJobsManager d.jobsPath jobsFs
    .ok { save_file := file, gantry := gantry, tools := d.tools, jobs_manager := jm }

/-! ## Theorems -/

/-- C1: the spec says a missing, zero-byte or invalid-JSON aggregate state
file makes `load_factory` fall back to defaults with a logged warning.  The
code instead raises: `data` is assigned only on the successful-parse branch,
so `data.get("machines", \x7b\x7d)` raises `UnboundLocalError` (a `NameError`)
on each of the three failure branches.  This theorem evaluates the embedded
code at the three failing inputs. -/
theorem load_factory_raises_on_missing_empty_or_invalid :
    Factory.load_factory "factory.json" .absent .absent = .error (.nameError "data") ∧
    Factory.load_factory "factory.json" .empty .absent = .error (.nameError "data") ∧
    Factory.load_factory "factory.json" .invalid .absent = .error (.nameError "data") :=
  ⟨rfl, rfl, rfl⟩

/-- Event trace emitted by `screw("CW", duration := 2, speed := 50)` on a
connected controller. -/
def screwCWEvents : List GpioEvent :=
  match screw true "CW" 2 50 with
  | .ok (es, _) => es
  | .error _ => []

/-- Event trace emitted by a follow-up `screw("STOP")`. -/
def screwStopEvents : List GpioEvent :=
  match screw true "STOP" 0 50 with
  | .ok (es, _) => es
  | .error _ => []

/-- C2 counterexample: after `screw("CW", 2, 50)` returns, the direction
output is still high, not low, and a subsequent `screw("STOP")` leaves it
high as well: STOP only zeroes the duty cycle and never touches the
direction pin. -/
theorem screw_cw_direction_not_low :
    ¬ (runGpioEvents initGpio screwCWEvents).dirPin = PinLevel.low ∧
    ¬ (runGpioEvents initGpio (screwCWEvents ++ screwStopEvents)).dirPin = PinLevel.low := by
  have h1 : (runGpioEvents initGpio screwCWEvents).dirPin = PinLevel.high := rfl
  have h2 : (runGpioEvents initGpio (screwCWEvents ++ screwStopEvents)).dirPin =
      PinLevel.high := rfl
  exact ⟨by simp [h1], by simp [h2]⟩

/-- C2 amended: on a connected controller, `screw("CW", 2, 50)` drives the
direction pin high (CW) and duty 50 for the 2-unit hold, and on return the
duty cycle is 0 while the direction pin stays at its driven level;
`screw("STOP")` zeroes the duty cycle but leaves the direction pin exactly
as it was. -/
theorem screw_cw_then_zero_duty_direction_retained (s : GpioState) :
    screw true "CW" 2 50 =
      .ok ([.setDir .high, .setDuty 50, .sleep 2, .setDuty 0], ["CW 50 pct for 2s"]) ∧
    (runGpioEvents s [.setDir .high, .setDuty 50]).duty = 50 ∧
    (runGpioEvents s [.setDir .high, .setDuty 50]).dirPin = .high ∧
    (runGpioEvents s [.setDir .high, .setDuty 50, .sleep 2, .setDuty 0]).duty = 0 ∧
    (runGpioEvents s [.setDir .high, .setDuty 50, .sleep 2, .setDuty 0]).dirPin = .high ∧
    screw true "STOP" 0 50 = .ok ([.setDuty 0], ["STOP"]) ∧
    (runGpioEvents s [GpioEvent.setDuty 0]).duty = 0 ∧
    (runGpioEvents s [GpioEvent.setDuty 0]).dirPin = s.dirPin :=
  ⟨rfl, rfl, rfl, rfl, rfl, rfl, rfl, rfl⟩

/-- C5: `unlock(t)` leaves the lock output de-energized after returning on
every exit path, whether the hold completes or raises. -/
theorem unlock_always_deenergizes (t : Rat) (outcome : HoldOutcome) (s : GpioState) :
    (runGpioEvents s (unlock t outcome).1).lockPin = PinLevel.low := by
  cases outcome <;> rfl

/-- C4: `goto` while Moving returns the busy result `false` and changes
neither pose nor motion state; `goto` while Idle returns `true`, moves the
state to Moving without touching the pose, and the move task sets the state
back to Idle on its exit path whether the command sequence completes or
raises. -/
theorem goto_busy_reject_and_idle_on_exit (s : GantryState) (x y z a sp : Rat)
    (outcome : TaskOutcome) :
    (s.in_motion = true → Gantry.goto s x y z a sp = (false, s)) ∧
    (s.in_motion = false →
      (Gantry.goto s x y z a sp).1 = true ∧
      (Gantry.goto s x y z a sp).2.in_motion = true ∧
      (Gantry.goto s x y z a sp).2.position = s.position ∧
      (Gantry.goto_task x y z a sp outcome (Gantry.goto s x y z a sp).2).1.in_motion = false ∧
      (Gantry.goto_task x y z a sp outcome (Gantry.goto s x y z a sp).2).1.position =
        s.position) := by
  constructor
  · intro h
    simp [Gantry.goto, h]
  · intro h
    cases outcome <;> simp [Gantry.goto, Gantry.goto_task, h]

/-- C4 witness at a concrete busy state and a concrete idle state with a
raising task body. -/
theorem goto_busy_reject_and_idle_on_exit_witness :
    Gantry.goto ⟨true, ⟨1, 2, 3, 0⟩⟩ 4 5 6 0 100 = (false, ⟨true, ⟨1, 2, 3, 0⟩⟩) ∧
    (Gantry.goto_task 4 5 6 0 100 .raised
        (Gantry.goto ⟨false, ⟨1, 2, 3, 0⟩⟩ 4 5 6 0 100).2).1.in_motion = false :=
  ⟨(goto_busy_reject_and_idle_on_exit ⟨true, ⟨1, 2, 3, 0⟩⟩ 4 5 6 0 100 .raised).1 rfl,
   ((goto_busy_reject_and_idle_on_exit ⟨false, ⟨1, 2, 3, 0⟩⟩ 4 5 6 0 100 .raised).2
       rfl).2.2.2.1⟩

/-- C6: when `stop` brings the reference count from 1 to 0, the capture
handle is released and cleared, the thread handle dropped and the session
fields reset, for both join outcomes: the close runs even when the loop
fails to stop within the bounded join timeout. -/
theorem stop_closes_device_even_on_join_timeout (s : CamState) (joinOk : Bool)
    (h : s.refCount = 1) :
    (CameraManager.stop joinOk s).cap = none ∧
    (CameraManager.stop joinOk s).threadHeld = false ∧
    (CameraManager.stop joinOk s).refCount = 0 ∧
    (CameraManager.stop joinOk s).stopSet = true := by
  simp [CameraManager.stop, h]

/-- C6 witness: a live one-reference session torn down while the join times
out. -/
theorem stop_closes_device_even_on_join_timeout_witness :
    (CameraManager.stop false
        { refCount := 1, cap := some true, threadHeld := true,
          stopSet := false, loopRunning := true }).cap = none :=
  (stop_closes_device_even_on_join_timeout
    { refCount := 1, cap := some true, threadHeld := true,
      stopSet := false, loopRunning := true } false rfl).1

/-- A completed `start` or `stop` call keeps the reference count
non-negative. -/
theorem camStep_refCount_nonneg (s : CamState) (op : CamOp) (h : 0 ≤ s.refCount) :
    0 ≤ (camStep s op).refCount := by
  cases op with
  | start openOk =>
    simp only [camStep, CameraManager.start]
    split
    · simpa using by omega
    · split
      · simpa using h
      · simpa using by omega
  | stop joinOk =>
    simp only [camStep, CameraManager.stop]
    split
    · simp
    · rename_i hgt
      simp only []
      omega

/-- The non-negativity invariant survives any call sequence from any
non-negative state. -/
theorem camFold_refCount_nonneg (ops : List CamOp) (s : CamState) (h : 0 ≤ s.refCount) :
    0 ≤ (ops.foldl camStep s).refCount := by
  induction ops generalizing s with
  | nil => exact h
  | cons op rest ih => exact ih (camStep s op) (camStep_refCount_nonneg s op h)

/-- C7: over every sequence of completed acquire/release calls (failed opens
and join-timeout teardowns included), the observed reference count of a
session is never negative. -/
theorem refcount_never_negative (ops : List CamOp) : 0 ≤ (camRun ops).refCount :=
  camFold_refCount_nonneg ops initCam (by simp [initCam])

/-- C3 counterexample: on a fresh store with a jobs path set, `add_job`
stores params x 0, y 5, z 0, a 0, speed 3000, while the PARAM_TEMPLATES
entry for the default machine and action (gantry, step) is present and
equals x 0, y 0, z 0, r 0, speed 1000: the stored params are not taken from
the template. -/
theorem add_job_ignores_param_template :
    (add_job { initJobsManager with jobs_file := "jobs.json" } (JobsFile.doc [])).2.1.jobs =
      [("0", { id := "0", machine := "gantry", action := "step",
               params := [("x", 0), ("y", 5), ("z", 0), ("a", 0), ("speed", 3000)] })] ∧
    get_default_params "gantry" "step" =
      [("x", 0), ("y", 0), ("z", 0), ("r", 0), ("speed", 1000)] ∧
    ¬ [(("x" : String), (0 : Int)), ("y", 5), ("z", 0), ("a", 0), ("speed", 3000)] =
      get_default_params "gantry" "step" :=
  ⟨rfl, rfl, by decide⟩

/-- C3 amended: `add_job` assigns the next counter value as the new job id,
increments the counter, stores a job with machine gantry, action step and
the fixed literal params x 0, y 5, z 0, a 0, speed 3000 (it does not consult
PARAM_TEMPLATES), persists the store when a file path is set, and returns
the id. -/
theorem add_job_assigns_counter_and_persists (m : JobsManager) (fs : JobsFile)
    (hpath : m.jobs_file ≠ "") :
    (add_job m fs).1 = toString m.counter ∧
    (add_job m fs).2.1.counter = m.counter + 1 ∧
    (add_job m fs).2.1.jobs =
      dictSet m.jobs (toString m.counter)
        { id := toString m.counter, machine := "gantry", action := "step",
          params := [("x", 0), ("y", 5), ("z", 0), ("a", 0), ("speed", 3000)] } ∧
    (add_job m fs).2.2 = JobsFile.doc (add_job m fs).2.1.jobs := by
  refine ⟨rfl, rfl, rfl, ?_⟩
  simp [add_job, save_jobs, hpath]

/-- C3 witness: the amended behaviour at a fresh store with path set. -/
theorem add_job_assigns_counter_and_persists_witness :
    (add_job { initJobsManager with jobs_file := "jobs.json" } (JobsFile.doc [])).1 = "0" ∧
    (add_job { initJobsManager with jobs_file := "jobs.json" } (JobsFile.doc [])).2.2 =
      JobsFile.doc
        (add_job { initJobsManager with jobs_file := "jobs.json" } (JobsFile.doc [])).2.1.jobs :=
  ⟨(add_job_assigns_counter_and_persists
      { initJobsManager with jobs_file := "jobs.json" } (JobsFile.doc []) (by decide)).1,
   (add_job_assigns_counter_and_persists
      { initJobsManager with jobs_file := "jobs.json" } (JobsFile.doc []) (by decide)).2.2.2⟩

/-- C8: for a store with a path set and unique job ids, saving and then
loading the written file into a fresh manager restores exactly the same job
mapping. -/
theorem jobs_save_load_roundtrip (m fresh : JobsManager) (fs : JobsFile)
    (hpath : m.jobs_file ≠ "") (hids : (m.jobs.map Prod.fst).Nodup) :
    (save_jobs m fs).1 = true ∧
    (JobsManager.load fresh m.jobs_file (save_jobs m fs).2).jobs = m.jobs := by
  constructor
  · simp [save_jobs, hpath]
  · simp [save_jobs, hpath, JobsManager.load]

/-- C8 witness: a one-job store round-trips through an initially absent
file. -/
theorem jobs_save_load_roundtrip_witness :
    (JobsManager.load initJobsManager "jobs.json"
        (save_jobs
          { jobs_file := "jobs.json", counter := 1,
            jobs := [("0", { id := "0", machine := "gantry", action := "step",
                             params := [("x", 1)] })] }
          JobsFile.absent).2).jobs =
      [("0", { id := "0", machine := "gantry", action := "step", params := [("x", 1)] })] :=
  (jobs_save_load_roundtrip
    { jobs_file := "jobs.json", counter := 1,
      jobs := [("0", { id := "0", machine := "gantry", action := "step",
                       params := [("x", 1)] })] }
    initJobsManager JobsFile.absent (by decide) (by decide)).2

/-- A machine whose `goto` yields an awaitable, as `inspect.isawaitable`
classifies an async dispatch result. -/
def awaitableGotoMachine : Machine := [("goto", fun _ => CallResult.awaitable ["True"])]

/-- A stored job targeting that action. -/
def gotoJob : Job := { id := "0", machine := "gantry", action := "goto", params := [("x", 1)] }

/-- C9 counterexample: dispatching an action whose result is awaitable
returns at once, and the jobs file is NOT persisted: starting with the file
absent on disk, it is still absent after the call, whereas a persist would
have written the job document. -/
theorem run_job_awaitable_not_persisted :
    (run_job gotoJob awaitableGotoMachine
        { initJobsManager with jobs_file := "jobs.json" } JobsFile.absent).2.2 =
      JobsFile.absent ∧
    ¬ JobsFile.absent =
      JobsFile.doc ({ initJobsManager with jobs_file := "jobs.json" } : JobsManager).jobs :=
  ⟨rfl, by decide⟩

/-- C9 amended: when the dispatched action returns an awaitable, `run_job`
hands it back immediately without waiting for completion, and skips the
persist: the manager and the jobs file are returned unchanged (persistence
happens only on the synchronous path). -/
theorem run_job_awaitable_returns_without_persisting (job : Job) (machine : Machine)
    (m : JobsManager) (fs : JobsFile) (f : List (String × Int) → CallResult)
    (v : List String) (hlook : machine.lookup job.action = some f)
    (hres : f job.params = CallResult.awaitable v) :
    run_job job machine m fs = (some (CallResult.awaitable v), m, fs) := by
  simp [run_job, hlook, hres]

/-- C9 witness: the awaitable `goto` dispatch at a concrete store. -/
theorem run_job_awaitable_returns_without_persisting_witness :
    run_job gotoJob awaitableGotoMachine
        { initJobsManager with jobs_file := "jobs.json" } JobsFile.absent =
      (some (CallResult.awaitable ["True"]),
        { initJobsManager with jobs_file := "jobs.json" }, JobsFile.absent) :=
  run_job_awaitable_returns_without_persisting gotoJob awaitableGotoMachine
    { initJobsManager with jobs_file := "jobs.json" } JobsFile.absent
    (fun _ => CallResult.awaitable ["True"]) ["True"] rfl rfl

/-- When some entry of the dict carries the key, replacing in place makes
lookup return the new value. -/
theorem lookup_map_replace (m : JobMap) (k : String) (v : Job)
    (h : m.any (fun p => p.1 == k) = true) :
    (m.map (fun p => if p.1 == k then (k, v) else p)).lookup k = some v := by
  induction m with
  | nil => simp at h
  | cons p rest ih =>
    obtain ⟨pk, pv⟩ := p
    by_cases hpk : pk = k
    · rw [List.map_cons, if_pos (beq_iff_eq.mpr hpk)]
      simp [List.lookup]
    · have hb : (pk == k) = false := beq_eq_false_iff_ne.mpr hpk
      have hb2 : (k == pk) = false := beq_eq_false_iff_ne.mpr (Ne.symm hpk)
      rw [List.map_cons, if_neg (by simp [hb])]
      have hskip : List.lookup k
          ((pk, pv) :: List.map (fun p => if p.1 == k then (k, v) else p) rest) =
          List.lookup k (List.map (fun p => if p.1 == k then (k, v) else p) rest) := by
        simp [List.lookup, hb2]
      rw [hskip]
      apply ih
      simpa [List.any_cons, hb] using h

/-- C10: the id counter starts at 0, `load` never advances it, and when the
loaded file already holds a job under the id the counter will next produce,
the next `add_job` hands out that very id and replaces the loaded job in
place: the mapping keeps its size instead of gaining a distinct entry. -/
theorem add_after_load_reuses_and_replaces_id (m0 : JobsManager) (path : String)
    (fileJobs : JobMap) (hpath : path ≠ "")
    (hmem : fileJobs.any (fun p => p.1 == toString m0.counter) = true) :
    initJobsManager.counter = 0 ∧
    (JobsManager.load m0 path (JobsFile.doc fileJobs)).counter = m0.counter ∧
    (add_job (JobsManager.load m0 path (JobsFile.doc fileJobs)) (JobsFile.doc fileJobs)).1 =
      toString m0.counter ∧
    ((add_job (JobsManager.load m0 path (JobsFile.doc fileJobs))
        (JobsFile.doc fileJobs)).2.1.jobs.lookup (toString m0.counter)) =
      some { id := toString m0.counter, machine := "gantry", action := "step",
             params := [("x", 0), ("y", 5), ("z", 0), ("a", 0), ("speed", 3000)] } ∧
    (add_job (JobsManager.load m0 path (JobsFile.doc fileJobs))
        (JobsFile.doc fileJobs)).2.1.jobs.length = fileJobs.length := by
  have hload : JobsManager.load m0 path (JobsFile.doc fileJobs) =
      { m0 with jobs_file := path, jobs := fileJobs } := by
    simp [JobsManager.load, hpath]
  rw [hload]
  refine ⟨rfl, rfl, rfl, ?_, ?_⟩
  · show (dictSet fileJobs (toString m0.counter) _).lookup (toString m0.counter) = _
    unfold dictSet
    rw [if_pos hmem]
    exact lookup_map_replace fileJobs (toString m0.counter) _ hmem
  · show (dictSet fileJobs (toString m0.counter) _).length = fileJobs.length
    unfold dictSet
    rw [if_pos hmem]
    simp

/-- C10 witness: a fresh manager loads a file already holding id "0"; the
next `add_job` reuses "0" and the mapping stays at one entry. -/
theorem add_after_load_reuses_and_replaces_id_witness :
    (add_job (JobsManager.load initJobsManager "jobs.json"
        (JobsFile.doc [("0", { id := "0", machine := "cobot280", action := "goto",
                               params := [] })]))
      (JobsFile.doc [("0", { id := "0", machine := "cobot280", action := "goto",
                             params := [] })])).1 = "0" ∧
    (add_job (JobsManager.load initJobsManager "jobs.json"
        (JobsFile.doc [("0", { id := "0", machine := "cobot280", action := "goto",
                               params := [] })]))
      (JobsFile.doc [("0", { id := "0", machine := "cobot280", action := "goto",
                             params := [] })])).2.1.jobs.length = 1 :=
  ⟨(add_after_load_reuses_and_replaces_id initJobsManager "jobs.json"
      [("0", { id := "0", machine := "cobot280", action := "goto", params := [] })]
      (by decide) (by decide)).2.2.1,
   (add_after_load_reuses_and_replaces_id initJobsManager "jobs.json"
      [("0", { id := "0", machine := "cobot280", action := "goto", params := [] })]
      (by decide) (by decide)).2.2.2.2⟩
